import Mathlib

/-!
Verification of the Nubia NX531J liblight HAL (`src/liblight/lights.c`).

The file shallowly embeds the C source: hardware writes become an explicit
trace of write requests (`HWWrite`), `ALOGE` calls become `LogEvent`s, the
global variables `active_states`, `last_state` and the four cached
`light_state_t` colors become an explicit `EngineState` threaded through the
functions, and the fallible `open`/`write` syscalls become a `Sink` oracle
that says, per path, whether `open` or `write` fails and with which `errno`.
C `int` bit operations are modelled on `Nat`; all bitmask values involved are
below `2^32`, and `~event_source` (32-bit two's complement) is rendered as
`0xFFFFFFFF ^^^ eventSource`, which agrees with the C on the 32 relevant bits.
-/

/-! ## Constants from lights.c (lines 41-88) -/

def BLINK_MODE_ON : String := "6"
def BLINK_MODE_BREATH : String := "3"
def BLINK_MODE_OFF : String := "2"

def CHANNEL_BUTTONS : Nat := 8
def CHANNEL_RED : Nat := 16

def BRIGHTNESS_BUTTONS : Nat := 3
def BRIGHTNESS_RED : Nat := 8

def BREATH_SOURCE_NOTIFICATION : Nat := 0x01
def BREATH_SOURCE_BATTERY : Nat := 0x02
def BREATH_SOURCE_BUTTONS : Nat := 0x04
def BREATH_SOURCE_ATTENTION : Nat := 0x08
def BREATH_SOURCE_NONE : Nat := 0xFF

def LCD_FILE : String := "/sys/class/leds/lcd-backlight/brightness"

def BREATH_RED_LED : String := "/sys/class/leds/nubia_led/blink_mode"

def BREATH_RED_OUTN : String := "/sys/class/leds/nubia_led/outn"

def BREATH_RED_GRADE : String := "/sys/class/leds/nubia_led/grade_parameter"

/-! ## Hardware sink and the write primitives (lines 101-141) -/

/-- Oracle for the OS behaviour of one control point: `openErr p = some e`
means `open(p)` fails with `errno = e`; `writeErr p = some e` means the
`write` call fails with `errno = e`. -/
structure Sink where
  openErr : String → Option Nat
  writeErr : String → Option Nat

/-- The two `static int already_warned` flags: one inside `write_int`
(line 104), one inside `write_str` (line 125).  Each flag is shared by every
call of its function, regardless of the path written. -/
structure WarnState where
  warnedInt : Bool
  warnedStr : Bool
deriving Repr, DecidableEq

/-- Log messages the HAL can emit via `ALOGE`. -/
inductive LogEvent where
  | warnOpenInt (path : String)
  | warnOpenStr (path : String)
  | unknownState
  | redLedOn
  | buttonLedOn
deriving Repr, DecidableEq

/-- Result of one write primitive call: the returned status (`0` or
`-errno`), the updated warning flags, and the log lines emitted. -/
structure IoResult where
  ret : Int
  warn : WarnState
  logs : List LogEvent
deriving Repr, DecidableEq

/-- C function `write_int` (lines 101-120): on open failure, log once (guarded by the
function-wide `already_warned` flag) and return `-errno`; on write failure
return `-errno`; otherwise return `0`.  The value written does not affect
the status. -/
def write_int (sink : Sink) (w : WarnState) (path : String) (_value : Int) :
    IoResult :=
  match sink.openErr path with
  | some e =>
    if w.warnedInt then
      { ret := -(e : Int), warn := w, logs := [] }
    else
      { ret := -(e : Int), warn := { w with warnedInt := true },
        logs := [LogEvent.warnOpenInt path] }
  | none =>
    match sink.writeErr path with
    | some e => { ret := -(e : Int), warn := w, logs := [] }
    | none => { ret := 0, warn := w, logs := [] }

/-- C function `write_str` (lines 122-141): same shape as `write_int`, with its own
`already_warned` flag. -/
def write_str (sink : Sink) (w : WarnState) (path : String) (_value : String) :
    IoResult :=
  match sink.openErr path with
  | some e =>
    if w.warnedStr then
      { ret := -(e : Int), warn := w, logs := [] }
    else
      { ret := -(e : Int), warn := { w with warnedStr := true },
        logs := [LogEvent.warnOpenStr path] }
  | none =>
    match sink.writeErr path with
    | some e => { ret := -(e : Int), warn := w, logs := [] }
    | none => { ret := 0, warn := w, logs := [] }

/-- Both `already_warned` flags start at `0`. -/
def initWarn : WarnState := { warnedInt := false, warnedStr := false }

/-! ## The arbitration engine (lines 54-67 and 164-268) -/

/-- One hardware write request, as issued by the engine (the arguments of a
`write_int` or `write_str` call). -/
inductive HWWrite where
  | wInt (path : String) (value : Int)
  | wStr (path : String) (value : String)
deriving Repr, DecidableEq

/-- The engine's global mutable state: `active_states` (line 65),
`last_state` (line 67) and the four cached `light_state_t` colors
(lines 54-57). -/
structure EngineState where
  activeStates : Nat
  lastState : Nat
  gNotification : Nat
  gBattery : Nat
  gButtons : Nat
  gAttention : Nat
deriving Repr, DecidableEq

/-- C statics are zero-initialised; `last_state` starts at
`BREATH_SOURCE_NONE` (line 67). -/
def initState : EngineState :=
  { activeStates := 0, lastState := BREATH_SOURCE_NONE,
    gNotification := 0, gBattery := 0, gButtons := 0, gAttention := 0 }

/-- Result of one engine call: new state, the trace of hardware write
requests in order, the log lines, and the C return value. -/
structure BreathResult where
  state : EngineState
  writes : List HWWrite
  logs : List LogEvent
  ret : Int
deriving Repr, DecidableEq

/-- Lines 212-225: the output-pattern writes.  The branch tests the
`BREATH_SOURCE_BUTTONS` bit of `active_states` (not the winner): buttons bit
clear gives the two-write red-channel sequence using `blink_mode`; buttons
bit set gives the six-write dual-channel buttons-on sequence (which never
reads `blink_mode`, so the variable being left unassigned in the C buttons
branch is harmless dead code). -/
def patternWrites (activeStates : Nat) (blinkMode : String) :
    List HWWrite × List LogEvent :=
  if activeStates &&& BREATH_SOURCE_BUTTONS = 0 then
    ([HWWrite.wInt BREATH_RED_OUTN (CHANNEL_RED : Int),
      HWWrite.wStr BREATH_RED_LED blinkMode],
     [LogEvent.redLedOn])
  else
    ([HWWrite.wInt BREATH_RED_OUTN (CHANNEL_BUTTONS : Int),
      HWWrite.wInt BREATH_RED_GRADE (BRIGHTNESS_BUTTONS : Int),
      HWWrite.wStr BREATH_RED_LED BLINK_MODE_ON,
      HWWrite.wInt BREATH_RED_OUTN (CHANNEL_RED : Int),
      HWWrite.wInt BREATH_RED_GRADE (BRIGHTNESS_RED : Int),
      HWWrite.wStr BREATH_RED_LED BLINK_MODE_ON],
     [LogEvent.buttonLedOn])

/-- Lines 188-227: the priority chain and the pattern writes.  Runs on the
state after the `active_states` bit update.  The C also reassigns the local
`state` pointer to the winner's global in each branch; that pointer is never
read afterwards, so it is dropped here.  In each non-buttons branch
`blink_mode = BLINK_MODE_BREATH`. -/
def selectAndWrite (es : EngineState) : BreathResult :=
  if es.activeStates &&& BREATH_SOURCE_NOTIFICATION ≠ 0 then
    let es := { es with lastState := BREATH_SOURCE_NOTIFICATION }
    let p := patternWrites es.activeStates BLINK_MODE_BREATH
    { state := es, writes := p.1, logs := p.2, ret := 0 }
  else if es.activeStates &&& BREATH_SOURCE_BATTERY ≠ 0 then
    let es := { es with lastState := BREATH_SOURCE_BATTERY }
    let p := patternWrites es.activeStates BLINK_MODE_BREATH
    { state := es, writes := p.1, logs := p.2, ret := 0 }
  else if es.activeStates &&& BREATH_SOURCE_BUTTONS ≠ 0 then
    if es.lastState = BREATH_SOURCE_BUTTONS then
      { state := es, writes := [], logs := [], ret := 0 }
    else
      let es := { es with lastState := BREATH_SOURCE_BUTTONS }
      let p := patternWrites es.activeStates BLINK_MODE_BREATH
      { state := es, writes := p.1, logs := p.2, ret := 0 }
  else if es.activeStates &&& BREATH_SOURCE_ATTENTION ≠ 0 then
    let es := { es with lastState := BREATH_SOURCE_ATTENTION }
    let p := patternWrites es.activeStates BLINK_MODE_BREATH
    { state := es, writes := p.1, logs := p.2, ret := 0 }
  else
    { state := { es with lastState := BREATH_SOURCE_NONE },
      writes := [], logs := [LogEvent.unknownState], ret := 0 }

/-- Lines 176-180: the unconditional both-channels off sequence issued on
the zero-brightness path (buttons channel off, then red channel off). -/
def offWrites : List HWWrite :=
  [HWWrite.wInt BREATH_RED_OUTN (CHANNEL_BUTTONS : Int),
   HWWrite.wStr BREATH_RED_LED BLINK_MODE_OFF,
   HWWrite.wInt BREATH_RED_OUTN (CHANNEL_RED : Int),
   HWWrite.wStr BREATH_RED_LED BLINK_MODE_OFF]

/-- C function `set_breath_light_locked` (lines 164-228).  `brightness` is the red
byte of the incoming color (line 169).  Nonzero brightness sets the
source's bit; zero brightness clears it and unconditionally issues the
four-write both-channels off sequence (lines 176-180), returning early once
the set is empty (lines 182-185).  Every `write_int`/`write_str` return
value is discarded by the C, and the function returns 0 on all paths. -/
def set_breath_light_locked (es : EngineState) (eventSource : Nat)
    (color : Nat) : BreathResult :=
  let brightness := (color >>> 16) &&& 0xFF
  if 0 < brightness then
    selectAndWrite { es with activeStates := es.activeStates ||| eventSource }
  else
    let es := { es with
      activeStates := es.activeStates &&& (0xFFFFFFFF ^^^ eventSource) }
    if es.activeStates = 0 then
      { state := { es with lastState := BREATH_SOURCE_NONE },
        writes := offWrites, logs := [], ret := 0 }
    else
      let r := selectAndWrite es
      { r with writes := offWrites ++ r.writes }

/-- A sink on which every `open` fails with `errno = 19` (`ENODEV`),
modelling a permanently missing device node. -/
def failSink : Sink := { openErr := fun _ => some 19, writeErr := fun _ => none }

/-! ## Structural lemmas about the engine -/

/-- Pattern writes when the buttons bit is clear: select the red channel,
then write the blink mode. -/
lemma patternWrites_red (a : Nat) (m : String)
    (h : a &&& BREATH_SOURCE_BUTTONS = 0) :
    patternWrites a m =
      ([HWWrite.wInt BREATH_RED_OUTN (CHANNEL_RED : Int),
        HWWrite.wStr BREATH_RED_LED m], [LogEvent.redLedOn]) := by
  unfold patternWrites
  rw [if_pos h]

/-- Pattern writes when the buttons bit is set: the six-write dual-channel
buttons-on sequence, independent of the blink mode argument. -/
lemma patternWrites_buttons (a : Nat) (m : String)
    (h : a &&& BREATH_SOURCE_BUTTONS ≠ 0) :
    patternWrites a m =
      ([HWWrite.wInt BREATH_RED_OUTN (CHANNEL_BUTTONS : Int),
        HWWrite.wInt BREATH_RED_GRADE (BRIGHTNESS_BUTTONS : Int),
        HWWrite.wStr BREATH_RED_LED BLINK_MODE_ON,
        HWWrite.wInt BREATH_RED_OUTN (CHANNEL_RED : Int),
        HWWrite.wInt BREATH_RED_GRADE (BRIGHTNESS_RED : Int),
        HWWrite.wStr BREATH_RED_LED BLINK_MODE_ON],
       [LogEvent.buttonLedOn]) := by
  unfold patternWrites
  rw [if_neg h]

/-- The priority chain never changes `active_states`. -/
lemma sw_activeStates (es : EngineState) :
    (selectAndWrite es).state.activeStates = es.activeStates := by
  unfold selectAndWrite
  split_ifs <;> rfl

/-- The priority chain never changes the cached colors. -/
lemma sw_gFields (es : EngineState) :
    (selectAndWrite es).state.gNotification = es.gNotification ∧
    (selectAndWrite es).state.gBattery = es.gBattery ∧
    (selectAndWrite es).state.gButtons = es.gButtons ∧
    (selectAndWrite es).state.gAttention = es.gAttention := by
  unfold selectAndWrite
  split_ifs <;> exact ⟨rfl, rfl, rfl, rfl⟩

/-- Chain, notification branch (lines 188-191). -/
lemma sw_notification (es : EngineState)
    (h : es.activeStates &&& BREATH_SOURCE_NOTIFICATION ≠ 0) :
    selectAndWrite es =
      { state := { es with lastState := BREATH_SOURCE_NOTIFICATION },
        writes := (patternWrites es.activeStates BLINK_MODE_BREATH).1,
        logs := (patternWrites es.activeStates BLINK_MODE_BREATH).2,
        ret := 0 } := by
  unfold selectAndWrite
  rw [if_pos h]

/-- Chain, battery branch (lines 192-195). -/
lemma sw_battery (es : EngineState)
    (h1 : es.activeStates &&& BREATH_SOURCE_NOTIFICATION = 0)
    (h2 : es.activeStates &&& BREATH_SOURCE_BATTERY ≠ 0) :
    selectAndWrite es =
      { state := { es with lastState := BREATH_SOURCE_BATTERY },
        writes := (patternWrites es.activeStates BLINK_MODE_BREATH).1,
        logs := (patternWrites es.activeStates BLINK_MODE_BREATH).2,
        ret := 0 } := by
  unfold selectAndWrite
  rw [if_neg (by simp [h1]), if_pos h2]

/-- Chain, buttons branch with the idempotence short-circuit
(lines 196-198). -/
lemma sw_buttons_skip (es : EngineState)
    (h1 : es.activeStates &&& BREATH_SOURCE_NOTIFICATION = 0)
    (h2 : es.activeStates &&& BREATH_SOURCE_BATTERY = 0)
    (h3 : es.activeStates &&& BREATH_SOURCE_BUTTONS ≠ 0)
    (h4 : es.lastState = BREATH_SOURCE_BUTTONS) :
    selectAndWrite es = { state := es, writes := [], logs := [], ret := 0 } := by
  unfold selectAndWrite
  rw [if_neg (by simp [h1]), if_neg (by simp [h2]), if_pos h3, if_pos h4]

/-- Chain, buttons branch issuing the pattern (lines 200-201). -/
lemma sw_buttons_write (es : EngineState)
    (h1 : es.activeStates &&& BREATH_SOURCE_NOTIFICATION = 0)
    (h2 : es.activeStates &&& BREATH_SOURCE_BATTERY = 0)
    (h3 : es.activeStates &&& BREATH_SOURCE_BUTTONS ≠ 0)
    (h4 : es.lastState ≠ BREATH_SOURCE_BUTTONS) :
    selectAndWrite es =
      { state := { es with lastState := BREATH_SOURCE_BUTTONS },
        writes := (patternWrites es.activeStates BLINK_MODE_BREATH).1,
        logs := (patternWrites es.activeStates BLINK_MODE_BREATH).2,
        ret := 0 } := by
  unfold selectAndWrite
  rw [if_neg (by simp [h1]), if_neg (by simp [h2]), if_pos h3, if_neg h4]

/-- Chain, attention branch (lines 202-205). -/
lemma sw_attention (es : EngineState)
    (h1 : es.activeStates &&& BREATH_SOURCE_NOTIFICATION = 0)
    (h2 : es.activeStates &&& BREATH_SOURCE_BATTERY = 0)
    (h3 : es.activeStates &&& BREATH_SOURCE_BUTTONS = 0)
    (h4 : es.activeStates &&& BREATH_SOURCE_ATTENTION ≠ 0) :
    selectAndWrite es =
      { state := { es with lastState := BREATH_SOURCE_ATTENTION },
        writes := (patternWrites es.activeStates BLINK_MODE_BREATH).1,
        logs := (patternWrites es.activeStates BLINK_MODE_BREATH).2,
        ret := 0 } := by
  unfold selectAndWrite
  rw [if_neg (by simp [h1]), if_neg (by simp [h2]), if_neg (by simp [h3]),
    if_pos h4]

/-- Chain, defensive branch (lines 206-210). -/
lemma sw_unknown (es : EngineState)
    (h1 : es.activeStates &&& BREATH_SOURCE_NOTIFICATION = 0)
    (h2 : es.activeStates &&& BREATH_SOURCE_BATTERY = 0)
    (h3 : es.activeStates &&& BREATH_SOURCE_BUTTONS = 0)
    (h4 : es.activeStates &&& BREATH_SOURCE_ATTENTION = 0) :
    selectAndWrite es =
      { state := { es with lastState := BREATH_SOURCE_NONE },
        writes := [], logs := [LogEvent.unknownState], ret := 0 } := by
  unfold selectAndWrite
  rw [if_neg (by simp [h1]), if_neg (by simp [h2]), if_neg (by simp [h3]),
    if_neg (by simp [h4])]

/-- Locked call, nonzero brightness: set the bit and run the chain. -/
lemma sbll_pos (es : EngineState) (src c : Nat)
    (h : 0 < (c >>> 16) &&& 0xFF) :
    set_breath_light_locked es src c =
      selectAndWrite { es with activeStates := es.activeStates ||| src } := by
  unfold set_breath_light_locked
  rw [if_pos h]

/-- Locked call, zero brightness, set becomes empty: off writes and early
return with `last_state = BREATH_SOURCE_NONE`. -/
lemma sbll_zero_empty (es : EngineState) (src c : Nat)
    (h : ¬ 0 < (c >>> 16) &&& 0xFF)
    (h0 : es.activeStates &&& (0xFFFFFFFF ^^^ src) = 0) :
    set_breath_light_locked es src c =
      { state :=
          { es with
            activeStates := 0
            lastState := BREATH_SOURCE_NONE }
        writes := offWrites, logs := [], ret := 0 } := by
  unfold set_breath_light_locked
  rw [if_neg h]
  simp only [h0, if_true]

/-- Locked call, zero brightness, set still non-empty: off writes followed
by the chain on the cleared set. -/
lemma sbll_zero_nonempty (es : EngineState) (src c : Nat)
    (h : ¬ 0 < (c >>> 16) &&& 0xFF)
    (h0 : es.activeStates &&& (0xFFFFFFFF ^^^ src) ≠ 0) :
    set_breath_light_locked es src c =
      (let r := selectAndWrite
        { es with activeStates := es.activeStates &&& (0xFFFFFFFF ^^^ src) }
       { r with writes := offWrites ++ r.writes }) := by
  unfold set_breath_light_locked
  rw [if_neg h]
  simp only [if_neg h0]

/-- C function `set_light_notifications` (lines 250-258): store the new color in the
global, run the locked engine, return 0 unconditionally. -/
def set_light_notifications (es : EngineState) (color : Nat) : BreathResult :=
  let es := { es with gNotification := color }
  let r := set_breath_light_locked es BREATH_SOURCE_NOTIFICATION color
  { r with ret := 0 }

/-- C function `set_light_battery` (lines 240-248). -/
def set_light_battery (es : EngineState) (color : Nat) : BreathResult :=
  let es := { es with gBattery := color }
  let r := set_breath_light_locked es BREATH_SOURCE_BATTERY color
  { r with ret := 0 }

/-- C function `set_light_buttons` (lines 230-238). -/
def set_light_buttons (es : EngineState) (color : Nat) : BreathResult :=
  let es := { es with gButtons := color }
  let r := set_breath_light_locked es BREATH_SOURCE_BUTTONS color
  { r with ret := 0 }

/-- C function `set_light_attention` (lines 260-268). -/
def set_light_attention (es : EngineState) (color : Nat) : BreathResult :=
  let es := { es with gAttention := color }
  let r := set_breath_light_locked es BREATH_SOURCE_ATTENTION color
  { r with ret := 0 }

/-! ## The backlight path (lines 143-162) -/

/-- C function `rgb_to_brightness` (lines 143-151): mask to 24 bits, average the three
channels with truncating division. -/
def rgb_to_brightness (color : Nat) : Nat :=
  let c := color &&& 0x00FFFFFF
  (((c >>> 16) &&& 0xFF) + ((c >>> 8) &&& 0xFF) + (c &&& 0xFF)) / 3

/-- C function `set_light_backlight` (lines 153-162): one `write_int` to `LCD_FILE`
whose status is returned to the caller.  The second component records the
write request issued.  The function reads and writes none of the engine's
arbitration state. -/
def set_light_backlight (sink : Sink) (w : WarnState) (color : Nat) :
    IoResult × List HWWrite :=
  let b := rgb_to_brightness color
  (write_int sink w LCD_FILE (b : Int), [HWWrite.wInt LCD_FILE (b : Int)])

/-! ## Derived notions used by the claims -/

/-- The four logical breathing sources. -/
inductive Src where
  | notification
  | battery
  | buttons
  | attention
deriving Repr, DecidableEq

/-- The `BREATH_SOURCE_*` bit of a source. -/
def Src.bit : Src → Nat
  | .notification => BREATH_SOURCE_NOTIFICATION
  | .battery => BREATH_SOURCE_BATTERY
  | .buttons => BREATH_SOURCE_BUTTONS
  | .attention => BREATH_SOURCE_ATTENTION

/-- One `update(source, color)` call, dispatched to the source's facade. -/
def update (es : EngineState) (s : Src) (color : Nat) : BreathResult :=
  match s with
  | .notification => set_light_notifications es color
  | .battery => set_light_battery es color
  | .buttons => set_light_buttons es color
  | .attention => set_light_attention es color

/-- Run a sequence of update calls from a state. -/
def runCalls (es : EngineState) : List (Src × Nat) → EngineState
  | [] => es
  | c :: rest => runCalls (update es c.1 c.2).state rest

/-- The derived brightness of a packed color: the red-channel byte
(bits 16-23), as computed on line 169. -/
def brightnessOf (color : Nat) : Nat := (color >>> 16) &&& 0xFF

/-- The color of the most recent call in `calls` touching source `s`, if
any. -/
def lastColorOf (s : Src) (calls : List (Src × Nat)) : Option Nat :=
  calls.foldl (fun acc c => if c.1 = s then some c.2 else acc) none

/-- Execute one recorded write request through the corresponding primitive. -/
def execWrite (sink : Sink) (w : WarnState) : HWWrite → IoResult
  | .wInt p v => write_int sink w p v
  | .wStr p v => write_str sink w p v

/-- Execute a trace of write requests in order, returning the first
nonzero status (or 0), the final warning flags, and all logs. -/
def runWrites (sink : Sink) (w : WarnState) : List HWWrite → IoResult
  | [] => { ret := 0, warn := w, logs := [] }
  | hw :: rest =>
    let r := execWrite sink w hw
    let r' := runWrites sink r.warn rest
    { ret := if r.ret ≠ 0 then r.ret else r'.ret,
      warn := r'.warn, logs := r.logs ++ r'.logs }

/-- The facade's only state effect before the locked call: store the new
color in the source's global (lines 234, 244, 254, 264). -/
def storeColor (es : EngineState) (s : Src) (c : Nat) : EngineState :=
  match s with
  | .notification => { es with gNotification := c }
  | .battery => { es with gBattery := c }
  | .buttons => { es with gButtons := c }
  | .attention => { es with gAttention := c }

/-- Every facade is: store the color, run the locked engine on the source's
bit, return 0. -/
lemma update_eq (es : EngineState) (s : Src) (c : Nat) :
    update es s c =
      { set_breath_light_locked (storeColor es s c) s.bit c with ret := 0 } := by
  cases s <;> rfl

lemma update_writes (es : EngineState) (s : Src) (c : Nat) :
    (update es s c).writes =
      (set_breath_light_locked (storeColor es s c) s.bit c).writes := by
  cases s <;> rfl

lemma update_state (es : EngineState) (s : Src) (c : Nat) :
    (update es s c).state =
      (set_breath_light_locked (storeColor es s c) s.bit c).state := by
  cases s <;> rfl

lemma update_logs (es : EngineState) (s : Src) (c : Nat) :
    (update es s c).logs =
      (set_breath_light_locked (storeColor es s c) s.bit c).logs := by
  cases s <;> rfl

lemma storeColor_activeStates (es : EngineState) (s : Src) (c : Nat) :
    (storeColor es s c).activeStates = es.activeStates := by
  cases s <;> rfl

lemma storeColor_lastState (es : EngineState) (s : Src) (c : Nat) :
    (storeColor es s c).lastState = es.lastState := by
  cases s <;> rfl

/-! ## Bit arithmetic helpers -/

/-- A mask test against a power of two is nonzero exactly when the bit is
set. -/
lemma and_pow_ne_zero (x k : Nat) : x &&& 2 ^ k ≠ 0 ↔ x.testBit k := by
  rw [Nat.and_two_pow]
  cases h : x.testBit k <;> simp [h]

/-- Setting the buttons bit makes the buttons mask test nonzero. -/
lemma or_buttons_bit_ne (x : Nat) :
    (x ||| BREATH_SOURCE_BUTTONS) &&& BREATH_SOURCE_BUTTONS ≠ 0 := by
  have h : (x ||| BREATH_SOURCE_BUTTONS).testBit 2 = true := by
    simp [Nat.testBit_or]
    exact Or.inr (by decide)
  have h2 := (and_pow_ne_zero (x ||| BREATH_SOURCE_BUTTONS) 2).2 (by rw [h])
  simpa using h2

/-- The bit values of the four sources, as powers of two. -/
lemma src_bit_pow (s : Src) : ∃ k, k < 4 ∧ s.bit = 2 ^ k := by
  cases s
  · exact ⟨0, by norm_num, rfl⟩
  · exact ⟨1, by norm_num, rfl⟩
  · exact ⟨2, by norm_num, rfl⟩
  · exact ⟨3, by norm_num, rfl⟩

/-- Setting a source's bit makes its own mask test nonzero. -/
lemma or_bit_self_ne (x : Nat) (s : Src) : (x ||| s.bit) &&& s.bit ≠ 0 := by
  obtain ⟨k, _, hk⟩ := src_bit_pow s
  rw [hk]
  refine (and_pow_ne_zero _ k).2 ?_
  simp [Nat.testBit_or, Nat.testBit_two_pow_self]

/-- Setting one source's bit leaves another source's mask test unchanged
(bitmask values below 16). -/
lemma fin_or_other (s t : Src) (h : s ≠ t) :
    ∀ x : Fin 16, ((x : Nat) ||| s.bit) &&& t.bit = (x : Nat) &&& t.bit := by
  cases s <;> cases t <;> first
    | exact absurd rfl h
    | decide

/-- Clearing a source's bit makes its own mask test zero (bitmask values
below 16). -/
lemma fin_clear_self (s : Src) :
    ∀ x : Fin 16, ((x : Nat) &&& (0xFFFFFFFF ^^^ s.bit)) &&& s.bit = 0 := by
  cases s <;> decide

/-- Clearing one source's bit leaves another source's mask test unchanged
(bitmask values below 16). -/
lemma fin_clear_other (s t : Src) (h : s ≠ t) :
    ∀ x : Fin 16,
      ((x : Nat) &&& (0xFFFFFFFF ^^^ s.bit)) &&& t.bit = (x : Nat) &&& t.bit := by
  cases s <;> cases t <;> first
    | exact absurd rfl h
    | decide

/-- Setting a source's bit keeps the mask below 16. -/
lemma fin_or_lt (s : Src) : ∀ x : Fin 16, ((x : Nat) ||| s.bit) < 16 := by
  cases s <;> decide

/-- Clearing a source's bit keeps the mask below 16. -/
lemma fin_clear_lt (s : Src) :
    ∀ x : Fin 16, ((x : Nat) &&& (0xFFFFFFFF ^^^ s.bit)) < 16 := by
  cases s <;> decide

/-- A mask below 16 with all four source bits clear is zero. -/
lemma fin_all_clear_eq_zero :
    ∀ x : Fin 16, (x : Nat) &&& BREATH_SOURCE_NOTIFICATION = 0 →
      (x : Nat) &&& BREATH_SOURCE_BATTERY = 0 →
      (x : Nat) &&& BREATH_SOURCE_BUTTONS = 0 →
      (x : Nat) &&& BREATH_SOURCE_ATTENTION = 0 → (x : Nat) = 0 := by
  decide

/-- The `active_states` value after one update call. -/
lemma update_activeStates (es : EngineState) (s : Src) (c : Nat) :
    (update es s c).state.activeStates =
      (if 0 < brightnessOf c then es.activeStates ||| s.bit
       else es.activeStates &&& (0xFFFFFFFF ^^^ s.bit)) := by
  rw [update_eq]
  show (set_breath_light_locked (storeColor es s c) s.bit c).state.activeStates = _
  by_cases h : 0 < (c >>> 16) &&& 0xFF
  · rw [sbll_pos _ _ _ h, sw_activeStates, if_pos (by exact h)]
    exact congrArg (· ||| s.bit) (storeColor_activeStates es s c)
  · rw [if_neg (by exact h)]
    by_cases h0 : (storeColor es s c).activeStates &&& (0xFFFFFFFF ^^^ s.bit) = 0
    · rw [sbll_zero_empty _ _ _ h h0]
      rw [storeColor_activeStates] at h0
      exact h0.symm
    · rw [sbll_zero_nonempty _ _ _ h h0]
      show (selectAndWrite _).state.activeStates = _
      rw [sw_activeStates, storeColor_activeStates]

/-- Updates keep `active_states` below 16. -/
lemma update_activeStates_lt (es : EngineState) (s : Src) (c : Nat)
    (h : es.activeStates < 16) : (update es s c).state.activeStates < 16 := by
  rw [update_activeStates]
  by_cases hbr : 0 < brightnessOf c
  · rw [if_pos hbr]
    exact fin_or_lt s ⟨es.activeStates, h⟩
  · rw [if_neg hbr]
    exact fin_clear_lt s ⟨es.activeStates, h⟩

/-- All states reached from the initial state keep `active_states`
below 16. -/
lemma runCalls_activeStates_lt (calls : List (Src × Nat)) :
    ∀ es : EngineState, es.activeStates < 16 →
      (runCalls es calls).activeStates < 16 := by
  induction calls with
  | nil => exact fun es h => h
  | cons c rest ih =>
    intro es h
    exact ih _ (update_activeStates_lt es c.1 c.2 h)

/-! ## Claim theorems -/

/-- Claim C9: for every input color, `set_light_backlight` issues exactly the
one write to the backlight control point carrying
`((color>>16)&0xff + (color>>8)&0xff + (color&0xff)) / 3` (truncating
integer division, top byte ignored), and this value is at most 255.  The
function reads and writes no arbitration state (its embedding does not
mention `EngineState`). -/
theorem backlight_average_write (sink : Sink) (w : WarnState) (color : Nat) :
    (set_light_backlight sink w color).2 =
      [HWWrite.wInt LCD_FILE
        (((((color >>> 16) &&& 0xFF) + ((color >>> 8) &&& 0xFF)
          + (color &&& 0xFF)) / 3 : Nat) : Int)] ∧
    rgb_to_brightness color ≤ 255 := by
  have e16 : ((color &&& 0xFFFFFF) >>> 16) &&& 0xFF = (color >>> 16) &&& 0xFF := by
    rw [Nat.shiftRight_eq_div_pow, Nat.shiftRight_eq_div_pow,
      Nat.and_pow_two_sub_one_eq_mod color 24,
      Nat.and_pow_two_sub_one_eq_mod _ 8, Nat.and_pow_two_sub_one_eq_mod _ 8]
    omega
  have e8 : ((color &&& 0xFFFFFF) >>> 8) &&& 0xFF = (color >>> 8) &&& 0xFF := by
    rw [Nat.shiftRight_eq_div_pow, Nat.shiftRight_eq_div_pow,
      Nat.and_pow_two_sub_one_eq_mod color 24,
      Nat.and_pow_two_sub_one_eq_mod _ 8, Nat.and_pow_two_sub_one_eq_mod _ 8]
    omega
  have e0 : (color &&& 0xFFFFFF) &&& 0xFF = color &&& 0xFF := by
    rw [Nat.and_pow_two_sub_one_eq_mod color 24,
      Nat.and_pow_two_sub_one_eq_mod _ 8, Nat.and_pow_two_sub_one_eq_mod _ 8]
    omega
  have key : rgb_to_brightness color =
      (((color >>> 16) &&& 0xFF) + ((color >>> 8) &&& 0xFF)
        + (color &&& 0xFF)) / 3 := by
    simp only [rgb_to_brightness]
    rw [e16, e8, e0]
  refine ⟨?_, ?_⟩
  · show [HWWrite.wInt LCD_FILE ((rgb_to_brightness color : Nat) : Int)] = _
    rw [key]
  · rw [key, Nat.and_pow_two_sub_one_eq_mod _ 8,
      Nat.and_pow_two_sub_one_eq_mod _ 8, Nat.and_pow_two_sub_one_eq_mod _ 8]
    omega

/-- Claim C2 (amended): every update call on a breathing source returns 0
unconditionally; the statuses of the hardware writes it issues are discarded
by `set_breath_light_locked` and by the facades, so I/O errors are never
surfaced to the caller on the breathing paths. -/
theorem breath_update_always_returns_zero (es : EngineState) (s : Src)
    (c : Nat) : (update es s c).ret = 0 := by
  cases s <;> rfl

/-- Claim C2 is false on the code: `update(Notification, 0x010000)` from the
initial state issues the two-write breathing sequence; on a sink where every
write fails the first I/O error among those writes is `-19`, yet the call
returns `0`, not the negative status the claim requires. -/
theorem io_error_not_surfaced :
    (update initState Src.notification 0x010000).writes =
      [HWWrite.wInt BREATH_RED_OUTN (CHANNEL_RED : Int),
       HWWrite.wStr BREATH_RED_LED BLINK_MODE_BREATH] ∧
    (runWrites failSink initWarn
      (update initState Src.notification 0x010000).writes).ret = -19 ∧
    (update initState Src.notification 0x010000).ret = 0 := by
  decide

/-- Claim C7 (amended): the open-failure warning is suppressed per write
primitive, not per control point: `write_int` has a single shared flag for
all integer control points (first failure logged and flag set; any later
`write_int` call logs nothing), and `write_str` has its own independent
flag with the same behaviour. -/
theorem warn_once_per_primitive :
    (∀ (sink : Sink) (w : WarnState) (p : String) (v : Int) (e : Nat),
       sink.openErr p = some e → w.warnedInt = false →
       (write_int sink w p v).logs = [LogEvent.warnOpenInt p] ∧
       (write_int sink w p v).warn.warnedInt = true) ∧
    (∀ (sink : Sink) (w : WarnState) (p : String) (v : Int),
       w.warnedInt = true → (write_int sink w p v).logs = []) ∧
    (∀ (sink : Sink) (w : WarnState) (p : String) (v : String) (e : Nat),
       sink.openErr p = some e → w.warnedStr = false →
       (write_str sink w p v).logs = [LogEvent.warnOpenStr p] ∧
       (write_str sink w p v).warn.warnedStr = true) ∧
    (∀ (sink : Sink) (w : WarnState) (p : String) (v : String),
       w.warnedStr = true → (write_str sink w p v).logs = []) := by
  refine ⟨?_, ?_, ?_, ?_⟩
  · intro sink w p v e he hw
    unfold write_int
    rw [he]
    simp [hw]
  · intro sink w p v hw
    unfold write_int
    cases hs : sink.openErr p with
    | some e => simp [hw]
    | none => cases hw2 : sink.writeErr p <;> simp
  · intro sink w p v e he hw
    unfold write_str
    rw [he]
    simp [hw]
  · intro sink w p v hw
    unfold write_str
    cases hs : sink.openErr p with
    | some e => simp [hw]
    | none => cases hw2 : sink.writeErr p <;> simp

/-- Witness for the amended C7 theorem at concrete inputs. -/
theorem warn_once_per_primitive_witness :
    ((write_int failSink initWarn LCD_FILE 7).logs
        = [LogEvent.warnOpenInt LCD_FILE] ∧
     (write_int failSink initWarn LCD_FILE 7).warn.warnedInt = true) ∧
    (write_int failSink { warnedInt := true, warnedStr := false }
        BREATH_RED_OUTN 16).logs = [] ∧
    ((write_str failSink initWarn BREATH_RED_LED BLINK_MODE_OFF).logs
        = [LogEvent.warnOpenStr BREATH_RED_LED] ∧
     (write_str failSink initWarn BREATH_RED_LED BLINK_MODE_OFF).warn.warnedStr
        = true) ∧
    (write_str failSink { warnedInt := false, warnedStr := true }
        BREATH_RED_LED BLINK_MODE_OFF).logs = [] :=
  ⟨warn_once_per_primitive.1 failSink initWarn LCD_FILE 7 19 rfl rfl,
   warn_once_per_primitive.2.1 failSink
     { warnedInt := true, warnedStr := false } BREATH_RED_OUTN 16 rfl,
   warn_once_per_primitive.2.2.1 failSink initWarn BREATH_RED_LED
     BLINK_MODE_OFF 19 rfl rfl,
   warn_once_per_primitive.2.2.2 failSink
     { warnedInt := false, warnedStr := true } BREATH_RED_LED
     BLINK_MODE_OFF rfl⟩

/-- Claim C7 is false on the code: with both the backlight path and the
channel-selector path failing to open, the first failure (backlight) is
logged, but the first failure of the distinct control point
`BREATH_RED_OUTN` through the same primitive is suppressed by the shared
flag and logs nothing. -/
theorem warn_suppressed_across_points :
    (write_int failSink initWarn LCD_FILE 100).logs
      = [LogEvent.warnOpenInt LCD_FILE] ∧
    (write_int failSink (write_int failSink initWarn LCD_FILE 100).warn
      BREATH_RED_OUTN 16).logs = [] := by
  decide

/-- If the notification bit is set after a locked call, the chain ran and
recorded Notification. -/
lemma sbll_lastState_notification (es : EngineState) (src c : Nat)
    (h1 : (set_breath_light_locked es src c).state.activeStates &&&
      BREATH_SOURCE_NOTIFICATION ≠ 0) :
    (set_breath_light_locked es src c).state.lastState =
      BREATH_SOURCE_NOTIFICATION := by
  by_cases hbr : 0 < (c >>> 16) &&& 0xFF
  · rw [sbll_pos _ _ _ hbr] at h1 ⊢
    rw [sw_activeStates] at h1
    rw [sw_notification _ h1]
  · by_cases h0 : es.activeStates &&& (0xFFFFFFFF ^^^ src) = 0
    · rw [sbll_zero_empty _ _ _ hbr h0] at h1
      simp at h1
    · rw [sbll_zero_nonempty _ _ _ hbr h0] at h1 ⊢
      replace h1 : (selectAndWrite
          { es with activeStates := es.activeStates &&& (0xFFFFFFFF ^^^ src) }
        ).state.activeStates &&& BREATH_SOURCE_NOTIFICATION ≠ 0 := h1
      rw [sw_activeStates] at h1
      show (selectAndWrite
          { es with activeStates := es.activeStates &&& (0xFFFFFFFF ^^^ src) }
        ).state.lastState = BREATH_SOURCE_NOTIFICATION
      rw [sw_notification _ h1]

/-- Claim C4: the winner is chosen by fixed descending priority
Notification > Battery > Buttons > Attention; in particular, after any
update call whose resulting ActiveSourceSet has both the Notification and
Battery bits set, `last_state` records Notification, regardless of which
source was updated and of Buttons/Attention activity. -/
theorem notification_priority_over_battery (es : EngineState) (s : Src)
    (c : Nat)
    (h1 : (update es s c).state.activeStates &&&
      BREATH_SOURCE_NOTIFICATION ≠ 0)
    (_h2 : (update es s c).state.activeStates &&& BREATH_SOURCE_BATTERY ≠ 0) :
    (update es s c).state.lastState = BREATH_SOURCE_NOTIFICATION := by
  rw [update_eq] at h1 ⊢
  exact sbll_lastState_notification _ _ _ h1

/-- Witness for C4: Battery active, then a Notification update; both bits
are set afterwards and Notification is recorded as winner. -/
theorem notification_priority_over_battery_witness :
    (update { activeStates := 2, lastState := BREATH_SOURCE_BATTERY,
              gNotification := 0, gBattery := 0x010000, gButtons := 0,
              gAttention := 0 } Src.notification 0x010000).state.lastState =
      BREATH_SOURCE_NOTIFICATION :=
  notification_priority_over_battery _ Src.notification 0x010000
    (by decide) (by decide)

/-- Claim C5: if the winner of a resolution is Buttons and `last_state` was
already Buttons, the resolution issues no hardware writes; calling
`update(Buttons, same_state)` twice in a row with nonzero derived
brightness from the initial state issues writes on the first call only and
none on the second. -/
theorem buttons_idempotence :
    (∀ (es : EngineState) (c : Nat),
       0 < brightnessOf c →
       es.lastState = BREATH_SOURCE_BUTTONS →
       (es.activeStates ||| BREATH_SOURCE_BUTTONS) &&&
         BREATH_SOURCE_NOTIFICATION = 0 →
       (es.activeStates ||| BREATH_SOURCE_BUTTONS) &&&
         BREATH_SOURCE_BATTERY = 0 →
       (update es Src.buttons c).writes = []) ∧
    (∀ c : Nat, 0 < brightnessOf c →
       (update initState Src.buttons c).writes ≠ [] ∧
       (update (update initState Src.buttons c).state Src.buttons c).writes =
         []) := by
  have part1 : ∀ (es : EngineState) (c : Nat),
      0 < brightnessOf c →
      es.lastState = BREATH_SOURCE_BUTTONS →
      (es.activeStates ||| BREATH_SOURCE_BUTTONS) &&&
        BREATH_SOURCE_NOTIFICATION = 0 →
      (es.activeStates ||| BREATH_SOURCE_BUTTONS) &&&
        BREATH_SOURCE_BATTERY = 0 →
      (update es Src.buttons c).writes = [] := by
    intro es c hbr hl h1 h2
    rw [update_writes, sbll_pos _ _ _ hbr, sw_buttons_skip]
    · exact h1
    · exact h2
    · exact or_buttons_bit_ne _
    · exact hl
  refine ⟨part1, ?_⟩
  intro c hbr
  have hw1 : (update initState Src.buttons c).writes =
      (patternWrites (initState.activeStates ||| BREATH_SOURCE_BUTTONS)
        BLINK_MODE_BREATH).1 := by
    rw [update_writes, sbll_pos _ _ _ hbr, sw_buttons_write] <;>
      simp [storeColor, Src.bit, initState, BREATH_SOURCE_BUTTONS,
        BREATH_SOURCE_NOTIFICATION, BREATH_SOURCE_BATTERY, BREATH_SOURCE_NONE]
      <;> decide
  have hs1 : (update initState Src.buttons c).state.lastState =
      BREATH_SOURCE_BUTTONS := by
    rw [update_state, sbll_pos _ _ _ hbr, sw_buttons_write] <;>
      simp [storeColor, Src.bit, initState, BREATH_SOURCE_BUTTONS,
        BREATH_SOURCE_NOTIFICATION, BREATH_SOURCE_BATTERY, BREATH_SOURCE_NONE]
      <;> decide
  have hs2 : (update initState Src.buttons c).state.activeStates =
      BREATH_SOURCE_BUTTONS := by
    rw [update_activeStates, if_pos hbr]
    decide
  constructor
  · rw [hw1, patternWrites_buttons _ _ (by decide)]
    simp
  · apply part1 _ c hbr hs1
    · rw [hs2]
      decide
    · rw [hs2]
      decide

/-- Witness for C5 at concrete inputs. -/
theorem buttons_idempotence_witness :
    (update { activeStates := 4, lastState := BREATH_SOURCE_BUTTONS,
              gNotification := 0, gBattery := 0, gButtons := 0xFF0000,
              gAttention := 0 } Src.buttons 0xFF0000).writes = [] ∧
    ((update initState Src.buttons 0xFF0000).writes ≠ [] ∧
     (update (update initState Src.buttons 0xFF0000).state
       Src.buttons 0xFF0000).writes = []) :=
  ⟨buttons_idempotence.1 _ 0xFF0000 (by decide) rfl (by decide) (by decide),
   buttons_idempotence.2 0xFF0000 (by decide)⟩

/-- Claim C6: when an update's derived brightness is zero and no other
source bit is set (so the set becomes empty), the call writes exactly the
explicit off sequence to both channels (selector 8, mode "2", selector 16,
mode "2"), records `BREATH_SOURCE_NONE`, and issues no further writes. -/
theorem sole_source_off_sequence (es : EngineState) (s : Src) (c : Nat)
    (hbr : brightnessOf c = 0)
    (hsole : es.activeStates &&& (0xFFFFFFFF ^^^ s.bit) = 0) :
    (update es s c).writes = offWrites ∧
    (update es s c).state.lastState = BREATH_SOURCE_NONE ∧
    (update es s c).state.activeStates = 0 := by
  have hbr' : ¬ 0 < (c >>> 16) &&& 0xFF := by
    have : (c >>> 16) &&& 0xFF = 0 := hbr
    omega
  have h0 : (storeColor es s c).activeStates &&& (0xFFFFFFFF ^^^ s.bit) = 0 := by
    rw [storeColor_activeStates]
    exact hsole
  rw [update_eq, sbll_zero_empty _ _ _ hbr' h0]
  exact ⟨rfl, rfl, rfl⟩

/-- Witness for C6: Battery is the sole active source and is turned off. -/
theorem sole_source_off_sequence_witness :
    (update { activeStates := 2, lastState := BREATH_SOURCE_BATTERY,
              gNotification := 0, gBattery := 0x010000, gButtons := 0,
              gAttention := 0 } Src.battery 0).writes = offWrites ∧
    (update { activeStates := 2, lastState := BREATH_SOURCE_BATTERY,
              gNotification := 0, gBattery := 0x010000, gButtons := 0,
              gAttention := 0 } Src.battery 0).state.lastState =
      BREATH_SOURCE_NONE ∧
    (update { activeStates := 2, lastState := BREATH_SOURCE_BATTERY,
              gNotification := 0, gBattery := 0x010000, gButtons := 0,
              gAttention := 0 } Src.battery 0).state.activeStates = 0 :=
  sole_source_off_sequence _ Src.battery 0 (by decide) (by decide)

/-- If the buttons bit is clear and some breathing-source bit is set, the
chain issues exactly the two-write red breathing sequence. -/
lemma sw_writes_red (es : EngineState)
    (hb : es.activeStates &&& BREATH_SOURCE_BUTTONS = 0)
    (hsome : es.activeStates &&& BREATH_SOURCE_NOTIFICATION ≠ 0 ∨
             es.activeStates &&& BREATH_SOURCE_BATTERY ≠ 0 ∨
             es.activeStates &&& BREATH_SOURCE_ATTENTION ≠ 0) :
    (selectAndWrite es).writes =
      [HWWrite.wInt BREATH_RED_OUTN (CHANNEL_RED : Int),
       HWWrite.wStr BREATH_RED_LED BLINK_MODE_BREATH] := by
  by_cases h1 : es.activeStates &&& BREATH_SOURCE_NOTIFICATION = 0
  · by_cases h2 : es.activeStates &&& BREATH_SOURCE_BATTERY = 0
    · have h4 : es.activeStates &&& BREATH_SOURCE_ATTENTION ≠ 0 := by
        rcases hsome with h | h | h
        · exact absurd h1 h
        · exact absurd h2 h
        · exact h
      rw [sw_attention _ h1 h2 hb h4, patternWrites_red _ _ hb]
    · rw [sw_battery _ h1 h2, patternWrites_red _ _ hb]
  · rw [sw_notification _ h1, patternWrites_red _ _ hb]

/-- If the buttons bit is set and the winner is Notification or Battery,
the chain issues the six-write buttons-on sequence. -/
lemma sw_writes_buttons (es : EngineState)
    (hb : es.activeStates &&& BREATH_SOURCE_BUTTONS ≠ 0)
    (hwin : es.activeStates &&& BREATH_SOURCE_NOTIFICATION ≠ 0 ∨
            (es.activeStates &&& BREATH_SOURCE_NOTIFICATION = 0 ∧
             es.activeStates &&& BREATH_SOURCE_BATTERY ≠ 0)) :
    (selectAndWrite es).writes =
      [HWWrite.wInt BREATH_RED_OUTN (CHANNEL_BUTTONS : Int),
       HWWrite.wInt BREATH_RED_GRADE (BRIGHTNESS_BUTTONS : Int),
       HWWrite.wStr BREATH_RED_LED BLINK_MODE_ON,
       HWWrite.wInt BREATH_RED_OUTN (CHANNEL_RED : Int),
       HWWrite.wInt BREATH_RED_GRADE (BRIGHTNESS_RED : Int),
       HWWrite.wStr BREATH_RED_LED BLINK_MODE_ON] := by
  rcases hwin with h1 | ⟨h1, h2⟩
  · rw [sw_notification _ h1, patternWrites_buttons _ _ hb]
  · rw [sw_battery _ h1 h2, patternWrites_buttons _ _ hb]

/-- Claim C1 (amended): the write pattern of a resolution is chosen by the
Buttons membership of ActiveSourceSet, not by the winner.  When the updated
source has nonzero brightness and the Buttons bit is clear after the
update, the writes are exactly the two-write red breathing sequence; when
the Buttons bit is set and the winner is Notification or Battery, the
writes are the six-write buttons-on sequence instead.  In particular, in
the scenario `update(Buttons, 0xFF0000)` then `update(Notification,
0x010000)`, the second call issues the buttons-on sequence. -/
theorem breath_pattern_depends_on_buttons_bit :
    (∀ (es : EngineState) (s : Src) (c : Nat),
       0 < brightnessOf c →
       (es.activeStates ||| s.bit) &&& BREATH_SOURCE_BUTTONS = 0 →
       (update es s c).writes =
         [HWWrite.wInt BREATH_RED_OUTN (CHANNEL_RED : Int),
          HWWrite.wStr BREATH_RED_LED BLINK_MODE_BREATH]) ∧
    (∀ (es : EngineState) (s : Src) (c : Nat),
       0 < brightnessOf c →
       (es.activeStates ||| s.bit) &&& BREATH_SOURCE_BUTTONS ≠ 0 →
       ((es.activeStates ||| s.bit) &&& BREATH_SOURCE_NOTIFICATION ≠ 0 ∨
        ((es.activeStates ||| s.bit) &&& BREATH_SOURCE_NOTIFICATION = 0 ∧
         (es.activeStates ||| s.bit) &&& BREATH_SOURCE_BATTERY ≠ 0)) →
       (update es s c).writes =
         [HWWrite.wInt BREATH_RED_OUTN (CHANNEL_BUTTONS : Int),
          HWWrite.wInt BREATH_RED_GRADE (BRIGHTNESS_BUTTONS : Int),
          HWWrite.wStr BREATH_RED_LED BLINK_MODE_ON,
          HWWrite.wInt BREATH_RED_OUTN (CHANNEL_RED : Int),
          HWWrite.wInt BREATH_RED_GRADE (BRIGHTNESS_RED : Int),
          HWWrite.wStr BREATH_RED_LED BLINK_MODE_ON]) ∧
    (update (update initState Src.buttons 0xFF0000).state
        Src.notification 0x010000).writes =
      [HWWrite.wInt BREATH_RED_OUTN (CHANNEL_BUTTONS : Int),
       HWWrite.wInt BREATH_RED_GRADE (BRIGHTNESS_BUTTONS : Int),
       HWWrite.wStr BREATH_RED_LED BLINK_MODE_ON,
       HWWrite.wInt BREATH_RED_OUTN (CHANNEL_RED : Int),
       HWWrite.wInt BREATH_RED_GRADE (BRIGHTNESS_RED : Int),
       HWWrite.wStr BREATH_RED_LED BLINK_MODE_ON] := by
  refine ⟨?_, ?_, by decide⟩
  · intro es s c hbr hb
    rw [update_writes, sbll_pos _ _ _ hbr]
    apply sw_writes_red
    · simpa [storeColor_activeStates] using hb
    · have hself := or_bit_self_ne es.activeStates s
      cases s with
      | notification =>
        left
        simpa [storeColor_activeStates] using hself
      | battery =>
        right
        left
        simpa [storeColor_activeStates] using hself
      | buttons =>
        exact absurd hb (or_buttons_bit_ne _)
      | attention =>
        right
        right
        simpa [storeColor_activeStates] using hself
  · intro es s c hbr hb hwin
    rw [update_writes, sbll_pos _ _ _ hbr]
    apply sw_writes_buttons
    · simpa [storeColor_activeStates] using hb
    · rcases hwin with h1 | ⟨h1, h2⟩
      · left
        simpa [storeColor_activeStates] using h1
      · right
        refine ⟨?_, ?_⟩
        · simpa [storeColor_activeStates] using h1
        · simpa [storeColor_activeStates] using h2

/-- Witness for the amended C1 theorem at concrete inputs. -/
theorem breath_pattern_depends_on_buttons_bit_witness :
    (update initState Src.notification 0x010000).writes =
      [HWWrite.wInt BREATH_RED_OUTN (CHANNEL_RED : Int),
       HWWrite.wStr BREATH_RED_LED BLINK_MODE_BREATH] ∧
    (update { activeStates := 4, lastState := BREATH_SOURCE_BUTTONS,
              gNotification := 0, gBattery := 0, gButtons := 0xFF0000,
              gAttention := 0 } Src.notification 0x010000).writes =
      [HWWrite.wInt BREATH_RED_OUTN (CHANNEL_BUTTONS : Int),
       HWWrite.wInt BREATH_RED_GRADE (BRIGHTNESS_BUTTONS : Int),
       HWWrite.wStr BREATH_RED_LED BLINK_MODE_ON,
       HWWrite.wInt BREATH_RED_OUTN (CHANNEL_RED : Int),
       HWWrite.wInt BREATH_RED_GRADE (BRIGHTNESS_RED : Int),
       HWWrite.wStr BREATH_RED_LED BLINK_MODE_ON] :=
  ⟨breath_pattern_depends_on_buttons_bit.1 initState Src.notification
     0x010000 (by decide) (by decide),
   breath_pattern_depends_on_buttons_bit.2.1 _ Src.notification 0x010000
     (by decide) (by decide) (Or.inl (by decide))⟩

/-- Claim C1 is false on the code: after `update(Buttons, 0xFF0000)` then
`update(Notification, 0x010000)`, the second resolution's winner is
Notification (`last_state = BREATH_SOURCE_NOTIFICATION`), yet the writes
issued are the six-write buttons-on sequence, not the two-write red
breathing sequence the claim requires. -/
theorem buttons_bit_masks_breathing_writes :
    (update (update initState Src.buttons 0xFF0000).state
        Src.notification 0x010000).state.lastState =
      BREATH_SOURCE_NOTIFICATION ∧
    (update (update initState Src.buttons 0xFF0000).state
        Src.notification 0x010000).writes =
      [HWWrite.wInt BREATH_RED_OUTN (CHANNEL_BUTTONS : Int),
       HWWrite.wInt BREATH_RED_GRADE (BRIGHTNESS_BUTTONS : Int),
       HWWrite.wStr BREATH_RED_LED BLINK_MODE_ON,
       HWWrite.wInt BREATH_RED_OUTN (CHANNEL_RED : Int),
       HWWrite.wInt BREATH_RED_GRADE (BRIGHTNESS_RED : Int),
       HWWrite.wStr BREATH_RED_LED BLINK_MODE_ON] := by
  decide

/-- Lemma `fin_or_other` restated on bounded naturals. -/
lemma or_other_of_lt (s t : Src) (hst : s ≠ t) (x : Nat) (hx : x < 16) :
    (x ||| s.bit) &&& t.bit = x &&& t.bit :=
  fin_or_other s t hst ⟨x, hx⟩

/-- Lemma `fin_clear_self` restated on bounded naturals. -/
lemma clear_self_of_lt (s : Src) (x : Nat) (hx : x < 16) :
    (x &&& (0xFFFFFFFF ^^^ s.bit)) &&& s.bit = 0 :=
  fin_clear_self s ⟨x, hx⟩

/-- Lemma `fin_clear_other` restated on bounded naturals. -/
lemma clear_other_of_lt (s t : Src) (hst : s ≠ t) (x : Nat) (hx : x < 16) :
    (x &&& (0xFFFFFFFF ^^^ s.bit)) &&& t.bit = x &&& t.bit :=
  fin_clear_other s t hst ⟨x, hx⟩

/-- One update step rewrites the per-source bit test exactly as the
last-update-color table changes. -/
lemma step_bits (es : EngineState) (f : Src → Option Nat)
    (hlt : es.activeStates < 16)
    (H : ∀ T : Src, es.activeStates &&& T.bit ≠ 0 ↔
      ∃ cc, f T = some cc ∧ 0 < brightnessOf cc)
    (s : Src) (c : Nat) :
    ∀ T : Src, (update es s c).state.activeStates &&& T.bit ≠ 0 ↔
      ∃ cc, (if s = T then some c else f T) = some cc ∧
        0 < brightnessOf cc := by
  intro T
  rw [update_activeStates]
  by_cases hbr : 0 < brightnessOf c
  · rw [if_pos hbr]
    by_cases hTs : s = T
    · subst hTs
      rw [if_pos rfl]
      exact ⟨fun _ => ⟨c, rfl, hbr⟩, fun _ => or_bit_self_ne _ _⟩
    · rw [or_other_of_lt s T hTs es.activeStates hlt, if_neg hTs]
      exact H T
  · rw [if_neg hbr]
    by_cases hTs : s = T
    · subst hTs
      rw [clear_self_of_lt s es.activeStates hlt, if_pos rfl]
      simp [hbr]
    · rw [clear_other_of_lt s T hTs es.activeStates hlt, if_neg hTs]
      exact H T

/-- Generalized C3 induction: running calls from any state satisfying the
bit/table correspondence preserves it, with the table folded alongside. -/
lemma runCalls_bits (calls : List (Src × Nat)) :
    ∀ (es : EngineState) (f : Src → Option Nat),
      es.activeStates < 16 →
      (∀ T : Src, es.activeStates &&& T.bit ≠ 0 ↔
        ∃ cc, f T = some cc ∧ 0 < brightnessOf cc) →
      ∀ T : Src, (runCalls es calls).activeStates &&& T.bit ≠ 0 ↔
        ∃ cc, (calls.foldl
            (fun acc p => if p.1 = T then some p.2 else acc) (f T)) =
          some cc ∧ 0 < brightnessOf cc := by
  induction calls with
  | nil =>
    intro es f _ H T
    exact H T
  | cons p rest ih =>
    intro es f hlt H T
    have hstep := step_bits es f hlt H p.1 p.2
    have hlt' : (update es p.1 p.2).state.activeStates < 16 :=
      update_activeStates_lt es p.1 p.2 hlt
    have := ih (update es p.1 p.2).state
      (fun T' => if p.1 = T' then some p.2 else f T') hlt'
      (fun T' => by
        have h := hstep T'
        by_cases hT' : p.1 = T'
        · simpa [hT'] using h
        · simpa [hT'] using h) T
    simpa using this

/-- Claim C3: after every sequence of update calls, the ActiveSourceSet bit
of each source S is set exactly when the red-channel byte of the most
recent update touching S is nonzero; sources never updated have their bit
clear (the empty table row gives the right-hand side no witness). -/
theorem active_bit_matches_last_brightness (calls : List (Src × Nat))
    (T : Src) :
    0 < (runCalls initState calls).activeStates &&& T.bit ↔
      ∃ c, lastColorOf T calls = some c ∧ 0 < brightnessOf c := by
  have base : ∀ T' : Src, initState.activeStates &&& T'.bit ≠ 0 ↔
      ∃ cc, (fun _ : Src => (none : Option Nat)) T' = some cc ∧
        0 < brightnessOf cc := by
    intro T'
    constructor
    · intro h
      exact absurd (Nat.zero_and T'.bit) h
    · rintro ⟨cc, hcc, -⟩
      exact absurd hcc (by simp)
  have h := runCalls_bits calls initState (fun _ => none) (by decide) base T
  rw [Nat.pos_iff_ne_zero]
  exact h

/-- State component of the zero-brightness non-empty path. -/
lemma sbll_zero_nonempty_state (es : EngineState) (src c : Nat)
    (h : ¬ 0 < (c >>> 16) &&& 0xFF)
    (h0 : es.activeStates &&& (0xFFFFFFFF ^^^ src) ≠ 0) :
    (set_breath_light_locked es src c).state =
      (selectAndWrite
        { es with
          activeStates := es.activeStates &&& (0xFFFFFFFF ^^^ src) }).state := by
  rw [sbll_zero_nonempty _ _ _ h h0]

/-- Log component of the zero-brightness non-empty path. -/
lemma sbll_zero_nonempty_logs (es : EngineState) (src c : Nat)
    (h : ¬ 0 < (c >>> 16) &&& 0xFF)
    (h0 : es.activeStates &&& (0xFFFFFFFF ^^^ src) ≠ 0) :
    (set_breath_light_locked es src c).logs =
      (selectAndWrite
        { es with
          activeStates := es.activeStates &&& (0xFFFFFFFF ^^^ src) }).logs := by
  rw [sbll_zero_nonempty _ _ _ h h0]

/-- After the chain runs, `last_state` is `BREATH_SOURCE_NONE` or the bit
of a source that is set in the (chain-invariant) active set. -/
lemma sw_post (es : EngineState) :
    (selectAndWrite es).state.lastState = BREATH_SOURCE_NONE ∨
    ∃ t : Src, (selectAndWrite es).state.lastState = t.bit ∧
      es.activeStates &&& t.bit ≠ 0 := by
  by_cases h1 : es.activeStates &&& BREATH_SOURCE_NOTIFICATION = 0
  · by_cases h2 : es.activeStates &&& BREATH_SOURCE_BATTERY = 0
    · by_cases h3 : es.activeStates &&& BREATH_SOURCE_BUTTONS = 0
      · by_cases h4 : es.activeStates &&& BREATH_SOURCE_ATTENTION = 0
        · rw [sw_unknown _ h1 h2 h3 h4]
          exact Or.inl rfl
        · rw [sw_attention _ h1 h2 h3 h4]
          exact Or.inr ⟨Src.attention, rfl, h4⟩
      · by_cases h5 : es.lastState = BREATH_SOURCE_BUTTONS
        · rw [sw_buttons_skip _ h1 h2 h3 h5]
          exact Or.inr ⟨Src.buttons, h5, h3⟩
        · rw [sw_buttons_write _ h1 h2 h3 h5]
          exact Or.inr ⟨Src.buttons, rfl, h3⟩
    · rw [sw_battery _ h1 h2]
      exact Or.inr ⟨Src.battery, rfl, h2⟩
  · rw [sw_notification _ h1]
    exact Or.inr ⟨Src.notification, rfl, h1⟩

/-- Every single update call re-establishes the `last_state` consistency
property, from any starting state. -/
lemma update_lastState_consistent (es : EngineState) (s : Src) (c : Nat) :
    (update es s c).state.lastState = BREATH_SOURCE_NONE ∨
    ∃ t : Src, (update es s c).state.lastState = t.bit ∧
      (update es s c).state.activeStates &&& t.bit ≠ 0 := by
  rw [update_state]
  by_cases hbr : 0 < (c >>> 16) &&& 0xFF
  · rw [sbll_pos _ _ _ hbr, sw_activeStates]
    exact sw_post _
  · by_cases h0 : (storeColor es s c).activeStates &&&
      (0xFFFFFFFF ^^^ s.bit) = 0
    · rw [sbll_zero_empty _ _ _ hbr h0]
      exact Or.inl rfl
    · rw [sbll_zero_nonempty_state _ _ _ hbr h0, sw_activeStates]
      exact sw_post _

/-- The `last_state` consistency property is preserved along any run. -/
lemma runCalls_lastState_consistent (calls : List (Src × Nat)) :
    ∀ es : EngineState,
      (es.lastState = BREATH_SOURCE_NONE ∨
        ∃ t : Src, es.lastState = t.bit ∧ es.activeStates &&& t.bit ≠ 0) →
      ((runCalls es calls).lastState = BREATH_SOURCE_NONE ∨
        ∃ t : Src, (runCalls es calls).lastState = t.bit ∧
          (runCalls es calls).activeStates &&& t.bit ≠ 0) := by
  induction calls with
  | nil => exact fun es H => H
  | cons p rest ih =>
    intro es _
    exact ih _ (update_lastState_consistent es p.1 p.2)

/-- Claim C10: after every sequence of update calls on the four breathing
sources, `last_state` is either `BREATH_SOURCE_NONE` or the bit of a source
currently set in ActiveSourceSet; in particular an empty set forces
`BREATH_SOURCE_NONE` (the second disjunct requires a set bit). -/
theorem last_state_consistent (calls : List (Src × Nat)) :
    (runCalls initState calls).lastState = BREATH_SOURCE_NONE ∨
    ∃ t : Src, (runCalls initState calls).lastState = t.bit ∧
      0 < (runCalls initState calls).activeStates &&& t.bit := by
  have h := runCalls_lastState_consistent calls initState (Or.inl rfl)
  rcases h with h | ⟨t, ht, hbit⟩
  · exact Or.inl h
  · exact Or.inr ⟨t, ht, Nat.pos_of_ne_zero hbit⟩

/-- The chain's log events never include the defensive `Unknown state`
message. -/
lemma patternWrites_no_unknown (a : Nat) (m : String) :
    (patternWrites a m).2.count LogEvent.unknownState = 0 := by
  unfold patternWrites
  split_ifs <;> rfl

/-- If some known source bit is set, the chain does not take the defensive
branch. -/
lemma sw_logs_no_unknown (es : EngineState)
    (h : es.activeStates &&& BREATH_SOURCE_NOTIFICATION ≠ 0 ∨
         es.activeStates &&& BREATH_SOURCE_BATTERY ≠ 0 ∨
         es.activeStates &&& BREATH_SOURCE_BUTTONS ≠ 0 ∨
         es.activeStates &&& BREATH_SOURCE_ATTENTION ≠ 0) :
    (selectAndWrite es).logs.count LogEvent.unknownState = 0 := by
  by_cases h1 : es.activeStates &&& BREATH_SOURCE_NOTIFICATION = 0
  · by_cases h2 : es.activeStates &&& BREATH_SOURCE_BATTERY = 0
    · by_cases h3 : es.activeStates &&& BREATH_SOURCE_BUTTONS = 0
      · have h4 : es.activeStates &&& BREATH_SOURCE_ATTENTION ≠ 0 := by
          rcases h with h | h | h | h
          · exact absurd h1 h
          · exact absurd h2 h
          · exact absurd h3 h
          · exact h
        rw [sw_attention _ h1 h2 h3 h4]
        exact patternWrites_no_unknown _ _
      · by_cases h5 : es.lastState = BREATH_SOURCE_BUTTONS
        · rw [sw_buttons_skip _ h1 h2 h3 h5]
          rfl
        · rw [sw_buttons_write _ h1 h2 h3 h5]
          exact patternWrites_no_unknown _ _
    · rw [sw_battery _ h1 h2]
      exact patternWrites_no_unknown _ _
  · rw [sw_notification _ h1]
    exact patternWrites_no_unknown _ _

/-- From any state with a well-formed (below 16) active set, an update call
never emits the `Unknown state` log. -/
lemma update_no_unknown (es : EngineState) (hlt : es.activeStates < 16)
    (s : Src) (c : Nat) :
    (update es s c).logs.count LogEvent.unknownState = 0 := by
  rw [update_logs]
  by_cases hbr : 0 < (c >>> 16) &&& 0xFF
  · rw [sbll_pos _ _ _ hbr]
    apply sw_logs_no_unknown
    have hself := or_bit_self_ne (storeColor es s c).activeStates s
    cases s with
    | notification => exact Or.inl hself
    | battery => exact Or.inr (Or.inl hself)
    | buttons => exact Or.inr (Or.inr (Or.inl hself))
    | attention => exact Or.inr (Or.inr (Or.inr hself))
  · by_cases h0 : (storeColor es s c).activeStates &&&
      (0xFFFFFFFF ^^^ s.bit) = 0
    · rw [sbll_zero_empty _ _ _ hbr h0]
      rfl
    · rw [sbll_zero_nonempty_logs _ _ _ hbr h0]
      apply sw_logs_no_unknown
      have hslt : (storeColor es s c).activeStates < 16 := by
        rw [storeColor_activeStates]
        exact hlt
      have hmlt : (storeColor es s c).activeStates &&&
          (0xFFFFFFFF ^^^ s.bit) < 16 :=
        fin_clear_lt s ⟨(storeColor es s c).activeStates, hslt⟩
      by_contra hno
      push_neg at hno
      exact h0 (fin_all_clear_eq_zero ⟨_, hmlt⟩ hno.1 hno.2.1 hno.2.2.1
        hno.2.2.2)

/-- Claim C8: the defensive `Unknown state` branch (lines 206-210) is
unreachable: from any state reached by update calls on the four known
sources, a further update call never emits the `Unknown state` log. -/
theorem unknown_state_unreachable (calls : List (Src × Nat)) (s : Src)
    (c : Nat) :
    (update (runCalls initState calls) s c).logs.count
      LogEvent.unknownState = 0 :=
  update_no_unknown _ (runCalls_activeStates_lt calls initState (by decide))
    s c
